import Mathlib

/-!
Shallow embedding of the ZCS lawn-mower integration
(`custom_components/zcsmower`): the polling coordinator
(`coordinator.py:_async_update_data` and the command methods), the
service handlers (`__init__.py`) and the provisioning helper
(`helpers.py:validate_imei`), together with theorems settling the
specification claims about them.
-/

namespace Zcs

/-- Error kinds that Python code in this component can raise.
`zcsAuthError` and `zcsApiError` are modelled from the spec: `api.py`
is not under `src/`; the spec (section 6) only requires the client to
distinguish an authentication failure from any other failure via
distinct error kinds. `valueError` models `datetime.strptime` failing
on a malformed string; `keyError` models a missing dictionary key. -/
inductive PyError where
  | zcsAuthError
  | zcsApiError
  | valueError
  | keyError
  deriving DecidableEq

/-- Conditions `_async_update_data` can raise after its error mapping
(`coordinator.py` lines 144-147): auth errors become
`ConfigEntryAuthFailed`, other client API errors become `UpdateFailed`,
and anything else propagates unmapped. -/
inductive RefreshError where
  | configEntryAuthFailed
  | updateFailed
  | unhandled (e : PyError)
  deriving DecidableEq

/-- The `alarms.robot_state` object of a `thing.list` response entry.
Each field is optional because the Python code tests membership before
reading `lat`/`lng`, while `state` is read unconditionally (a missing
`state` key raises `KeyError`). Coordinates are only copied, never
computed with, so they are modelled as integers. -/
structure RobotState where
  state : Option Int
  lat : Option Int
  lng : Option Int
  deriving DecidableEq

/-- The `alarms` object of a response entry. -/
structure Alarms where
  robot_state : Option RobotState
  deriving DecidableEq

/-- One vendor attribute object; the code reads its `value` key
unconditionally, so a missing `value` raises `KeyError`. -/
structure AttrEntry where
  value : Option String
  deriving DecidableEq

/-- The `attrs` object of a response entry. -/
structure Attrs where
  robot_serial : Option AttrEntry
  program_version : Option AttrEntry
  deriving DecidableEq

/-- One per-device entry of the `thing.list` response `result` array,
restricted to the fields `_async_update_data` reads. Every field is
optional: the code tests `in` before each access. -/
structure MowerEntry where
  key : Option String
  connected : Option Bool
  lastCommunication : Option String
  lastSeen : Option String
  alarms : Option Alarms
  attrs : Option Attrs
  deriving DecidableEq

/-- The decoded `thing.list` response: the `result` key may be absent. -/
structure ThingListResponse where
  result : Option (List MowerEntry)
  deriving DecidableEq

/-- One snapshot row (`mower_data[imei]`, built at `coordinator.py`
lines 76-86). Timestamps are parsed into an abstract type `D`
(mirroring `datetime` objects). -/
structure MowerState (D : Type) where
  name : String
  imei : String
  serial : Option String
  sw_version : Option String
  state : Int
  location : Option (Int × Int)
  connected : Bool
  last_comm : Option D
  last_seen : Option D
  deriving DecidableEq

/-- The coordinator snapshot: an insertion-ordered mapping from device
identifier (IMEI) to its row, modelled as an association list. -/
abbrev Snapshot (D : Type) := List (String × MowerState D)

/-- The placeholder row built for each registered mower at the start of
every refresh (`coordinator.py` lines 76-86). -/
def placeholderRow (D : Type) (name imei : String) : MowerState D :=
  { name := name
    imei := imei
    serial := none
    sw_version := none
    state := 0
    location := none
    connected := false
    last_comm := none
    last_seen := none }

/-- Replacement of the row stored under key `k` in the snapshot
(assignment to `mower_data[k]`). -/
def updateRow {D : Type} (data : Snapshot D) (k : String) (v : MowerState D) :
    Snapshot D :=
  data.map (fun p => if p.1 == k then (k, v) else p)

/-- Merge of the `alarms` block (`coordinator.py` lines 118-126):
`state` is read unconditionally from `robot_state` (missing key raises
`KeyError`), and the location is set only when both `lat` and `lng` are
present. -/
def mergeAlarms {D : Type} (row : MowerState D) (m : MowerEntry) :
    Except PyError (MowerState D) :=
  match m.alarms with
  | none => .ok row
  | some al =>
    match al.robot_state with
    | none => .ok row
    | some rs =>
      match rs.state with
      | none => .error .keyError
      | some s =>
        let row := { row with state := s }
        match rs.lat, rs.lng with
        | some la, some ln => .ok { row with location := some (la, ln) }
        | _, _ => .ok row

/-- Merge of the `robot_serial` attribute (`coordinator.py` lines
128-129): the serial is copied from the attribute `value` key, read
unconditionally (missing `value` raises `KeyError`). -/
def mergeSerial {D : Type} (row : MowerState D) (at_ : Attrs) :
    Except PyError (MowerState D) :=
  match at_.robot_serial with
  | none => .ok row
  | some a =>
    match a.value with
    | none => .error .keyError
    | some v => .ok { row with serial := some v }

/-- Merge of the `program_version` attribute (`coordinator.py` lines
130-131). -/
def mergeVersion {D : Type} (row : MowerState D) (at_ : Attrs) :
    Except PyError (MowerState D) :=
  match at_.program_version with
  | none => .ok row
  | some a =>
    match a.value with
    | none => .error .keyError
    | some v => .ok { row with sw_version := some v }

/-- Merge of the `attrs` block (`coordinator.py` lines 127-131). -/
def mergeAttrs {D : Type} (row : MowerState D) (m : MowerEntry) :
    Except PyError (MowerState D) :=
  match m.attrs with
  | none => .ok row
  | some at_ => do
    let r ← mergeSerial row at_
    mergeVersion r at_

/-- Merge of the `connected` flag (`coordinator.py` lines 132-133). -/
def mergeConnected {D : Type} (row : MowerState D) (m : MowerEntry) :
    MowerState D :=
  match m.connected with
  | none => row
  | some b => { row with connected := b }

/-- Merge of the `lastCommunication` timestamp (`coordinator.py` lines
134-135): `datetime.strptime` is modelled by `parseDT`, raising
`ValueError` when the string does not match the fixed format. -/
def mergeLastComm {D : Type} (parseDT : String → Option D)
    (row : MowerState D) (m : MowerEntry) : Except PyError (MowerState D) :=
  match m.lastCommunication with
  | none => .ok row
  | some s =>
    match parseDT s with
    | none => .error .valueError
    | some d => .ok { row with last_comm := some d }

/-- Merge of the `lastSeen` timestamp (`coordinator.py` lines 136-137). -/
def mergeLastSeen {D : Type} (parseDT : String → Option D)
    (row : MowerState D) (m : MowerEntry) : Except PyError (MowerState D) :=
  match m.lastSeen with
  | none => .ok row
  | some s =>
    match parseDT s with
    | none => .error .valueError
    | some d => .ok { row with last_seen := some d }

/-- Merge of one response entry into the row stored for its key, in the
order the source performs the field updates (`coordinator.py` lines
118-137). -/
def mergeMower {D : Type} (parseDT : String → Option D)
    (row : MowerState D) (m : MowerEntry) : Except PyError (MowerState D) := do
  let r1 ← mergeAlarms row m
  let r2 ← mergeAttrs r1 m
  let r3 := mergeConnected r2 m
  let r4 ← mergeLastComm parseDT r3 m
  mergeLastSeen parseDT r4 m

/-- The merge loop over the response `result` list (`coordinator.py`
lines 113-137): entries whose `key` is absent or not a registered
identifier are skipped; registered entries update their row in place. -/
def applyEntries {D : Type} (parseDT : String → Option D)
    (data : Snapshot D) : List MowerEntry → Except PyError (Snapshot D)
  | [] => .ok data
  | m :: rest =>
    match m.key with
    | none => applyEntries parseDT data rest
    | some k =>
      match data.lookup k with
      | none => applyEntries parseDT data rest
      | some row => do
        let row' ← mergeMower parseDT row m
        applyEntries parseDT (updateRow data k row') rest

/-- Body of the `try` block of `_async_update_data` (`coordinator.py`
lines 71-143): build placeholder rows for every registered mower, issue
the batched fetch (its outcome is the `fetch` argument), and merge the
response when a `result` field is present. -/
def updateBody {D : Type} (parseDT : String → Option D)
    (mowers : List (String × String))
    (fetch : Except PyError ThingListResponse) :
    Except PyError (Snapshot D) := do
  let init : Snapshot D := mowers.map (fun p => (p.1, placeholderRow D p.2 p.1))
  let resp ← fetch
  match resp.result with
  | none => pure init
  | some entries => applyEntries parseDT init entries

/-- Full `_async_update_data` including the error mapping of
`coordinator.py` lines 144-147: `ZcsMowerApiAuthenticationError`
becomes `ConfigEntryAuthFailed`, `ZcsMowerApiError` becomes
`UpdateFailed`, and any other exception propagates unmapped. -/
def asyncUpdateData {D : Type} (parseDT : String → Option D)
    (mowers : List (String × String))
    (fetch : Except PyError ThingListResponse) :
    Except RefreshError (Snapshot D) :=
  match updateBody parseDT mowers fetch with
  | .ok d => .ok d
  | .error .zcsAuthError => .error .configEntryAuthFailed
  | .error .zcsApiError => .error .updateFailed
  | .error e => .error (.unhandled e)

/-- Modelled from the spec: the surrounding platform refresh step
(`DataUpdateCoordinator` is an external collaborator, not under
`src/`). Per spec sections 4.1 and 7, a successful `_async_update_data`
replaces the snapshot atomically; a raised condition leaves the
previous snapshot in place and surfaces the condition. -/
def refresh {D : Type} (prev : Snapshot D)
    (out : Except RefreshError (Snapshot D)) :
    Snapshot D × Option RefreshError :=
  match out with
  | .ok d => (d, none)
  | .error e => (prev, some e)

/-- Modelled from the spec: `const.py` is not under `src/`; the spec
(section 6) fixes only that the acknowledgement timeout is a fixed
constant. Its concrete value is irrelevant to every claim. -/
def API_ACK_TIMEOUT : Nat := 30

/-- A `method.exec` request as built by the command methods: vendor
method name, target IMEI, optional integer parameter object,
acknowledgement timeout and the singleton flag. -/
structure MethodExecReq where
  method : String
  imei : String
  params : Option (List (String × Int))
  ackTimeout : Nat
  singleton : Bool
  deriving DecidableEq

/-- An outbound request issued through `client.execute` by a command
method: the `sms.send` wake-up or a `method.exec` call. -/
inductive Request where
  | smsSend (coding : String) (imei : String) (message : String)
  | methodExec (r : MethodExecReq)
  deriving DecidableEq

/-- The behaviour of `client.execute` for command requests: each issued
request either returns a boolean outcome or raises. -/
abbrev Client := Request → Except PyError Bool

/-- The wake-up request (`coordinator.py` lines 156-163): `sms.send`
with 7-bit coding and the fixed payload `UP`. -/
def wakeReq (imei : String) : Request := .smsSend "SEVEN_BIT" imei "UP"

/-- The `method.exec` request of `async_set_profile` (`coordinator.py`
lines 177-188): the 1-based profile index is decremented. -/
def setProfileReq (imei : String) (profile : Int) : Request :=
  .methodExec ⟨"set_profile", imei, some [("profile", profile - 1)],
    API_ACK_TIMEOUT, true⟩

/-- The `method.exec` request of `async_work_until` (`coordinator.py`
lines 204-217): the 1-based area index is decremented, hours and
minutes pass through. -/
def workUntilReq (imei : String) (area hours minutes : Int) : Request :=
  .methodExec ⟨"work_until", imei,
    some [("area", area - 1), ("hh", hours), ("mm", minutes)],
    API_ACK_TIMEOUT, true⟩

/-- The `method.exec` request of `async_border_cut` (`coordinator.py`
lines 230-238): no parameter object. -/
def borderCutReq (imei : String) : Request :=
  .methodExec ⟨"border_cut", imei, none, API_ACK_TIMEOUT, true⟩

/-- The `method.exec` request of `async_charge_until` (`coordinator.py`
lines 254-267). -/
def chargeUntilReq (imei : String) (hours minutes weekday : Int) : Request :=
  .methodExec ⟨"charge_until", imei,
    some [("hh", hours), ("mm", minutes), ("weekday", weekday)],
    API_ACK_TIMEOUT, true⟩

/-- The `method.exec` request of `async_trace_position`
(`coordinator.py` lines 280-288): no parameter object. -/
def tracePositionReq (imei : String) : Request :=
  .methodExec ⟨"trace_position", imei, none, API_ACK_TIMEOUT, true⟩

/-- Embedding of `async_wake_up` (`coordinator.py` lines 149-166): the
`sms.send` request is issued; its result is returned, and any raised
exception is caught and converted to `False`. The second component is
the trace of issued requests. -/
def async_wake_up (c : Client) (imei : String) : Bool × List Request :=
  (match c (wakeReq imei) with
   | .ok b => b
   | .error _ => false,
   [wakeReq imei])

/-- Body of the `try` block shared by every command method: await the
wake-up (whose own exceptions are already swallowed inside
`async_wake_up`), then issue the `method.exec` request `req` and return
its outcome, together with the trace of issued requests. -/
def commandBody (c : Client) (imei : String) (req : Request) :
    Except PyError Bool × List Request :=
  let w := async_wake_up c imei
  (c req, w.2 ++ [req])

/-- The `except Exception: ... return False` wrapper shared by every
command method: an exception becomes the result `False`. -/
def guardCommand : Except PyError Bool × List Request → Bool × List Request
  | (.ok b, t) => (b, t)
  | (.error _, t) => (false, t)

/-- Embedding of `async_set_profile` (`coordinator.py` lines 168-191). -/
def async_set_profile (c : Client) (imei : String) (profile : Int) :
    Bool × List Request :=
  guardCommand (commandBody c imei (setProfileReq imei profile))

/-- Embedding of `async_work_until` (`coordinator.py` lines 193-220);
parameter order of the source signature: `imei, area, hours, minutes`. -/
def async_work_until (c : Client) (imei : String) (area hours minutes : Int) :
    Bool × List Request :=
  guardCommand (commandBody c imei (workUntilReq imei area hours minutes))

/-- Embedding of `async_border_cut` (`coordinator.py` lines 222-241). -/
def async_border_cut (c : Client) (imei : String) : Bool × List Request :=
  guardCommand (commandBody c imei (borderCutReq imei))

/-- Embedding of `async_charge_until` (`coordinator.py` lines 243-270);
parameter order of the source signature: `imei, hours, minutes,
weekday`. -/
def async_charge_until (c : Client) (imei : String) (hours minutes weekday : Int) :
    Bool × List Request :=
  guardCommand (commandBody c imei (chargeUntilReq imei hours minutes weekday))

/-- Embedding of `async_trace_position` (`coordinator.py` lines
272-291). -/
def async_trace_position (c : Client) (imei : String) : Bool × List Request :=
  guardCommand (commandBody c imei (tracePositionReq imei))

/-- Embedding of the service handler `async_handle_work_until`
(`__init__.py` lines 83-94): per target it calls
`coordinator.async_work_until(imei, data["hours"], data["minutes"],
data["area"])` with positional arguments, so the service field `hours`
lands in the coordinator slot `area`, `minutes` in `hours`, and
`area` in `minutes`. -/
def async_handle_work_until (c : Client) (imei : String)
    (hoursField minutesField areaField : Int) : Bool × List Request :=
  async_work_until c imei hoursField minutesField areaField

/-- The command methods defined on `ZcsMowerDataUpdateCoordinator`
(`coordinator.py` lines 149-292): exactly these six `async_*` methods
exist on the class. -/
def coordinatorCommandMethods : List String :=
  ["async_wake_up", "async_set_profile", "async_work_until",
   "async_border_cut", "async_charge_until", "async_trace_position"]

/-- The coordinator method each registered service handler invokes
(`__init__.py` lines 49-153), keyed by the logical service name. -/
def serviceHandlerCoordinatorCalls : List (String × String) :=
  [("set_profile", "async_set_profile"),
   ("work_now", "async_work_now"),
   ("work_for", "async_work_for"),
   ("work_until", "async_work_until"),
   ("border_cut", "async_border_cut"),
   ("charge_now", "async_charge_now"),
   ("charge_until", "async_charge_until"),
   ("trace_position", "async_trace_position"),
   ("keep_out", "async_keep_out")]

/-- Embedding of the IMEI pre-check of `validate_imei` (`helpers.py`
line 85): a `ValueError` is raised unless the string starts with `"35"`
and has length 15. Nothing else about the characters is checked. -/
def imeiPrecheckOk (imei : String) : Bool :=
  "35".data.isPrefixOf imei.data && imei.length == 15

/-- Embedding of `validate_imei` (`helpers.py` lines 77-100). The
`execFind` argument is the outcome of `client.execute("thing.find",
...)` (its truthiness on success). The result pairs the Python outcome
(`ok` for a returned response, or the raised error) with a flag
recording whether the API call was issued. -/
def validate_imei (execFind : Except PyError Bool) (imei : String) :
    Except PyError Unit × Bool :=
  if imeiPrecheckOk imei then
    match execFind with
    | .error e => (.error e, true)
    | .ok true => (.ok (), true)
    | .ok false => (.error .keyError, true)
  else
    (.error .valueError, false)

/-- Specification-side definition for the refinement in claim C9,
following the wording of the spec (section 3): a valid hardware identifier is
an IMEI-like string of exactly 15 digits with vendor prefix `"35"`. -/
def imeiSpecValid (imei : String) : Bool :=
  imei.length == 15 && "35".data.isPrefixOf imei.data &&
    imei.data.all Char.isDigit

theorem updateRow_keys {D : Type} (data : Snapshot D) (k : String)
    (v : MowerState D) :
    (updateRow data k v).map Prod.fst = data.map Prod.fst := by
  induction data with
  | nil => rfl
  | cons p rest ih =>
    show (if p.1 == k then (k, v) else p).1 :: (updateRow rest k v).map Prod.fst
        = p.1 :: rest.map Prod.fst
    by_cases h : (p.1 == k) = true
    · rw [if_pos h, ih, eq_of_beq h]
    · rw [if_neg h, ih]

theorem lookup_updateRow_ne {D : Type} (data : Snapshot D) (k imei : String)
    (v : MowerState D) (hne : k ≠ imei) :
    (updateRow data k v).lookup imei = data.lookup imei := by
  induction data with
  | nil => rfl
  | cons p rest ih =>
    show List.lookup imei ((if p.1 == k then (k, v) else p) :: updateRow rest k v)
        = List.lookup imei (p :: rest)
    by_cases h : (p.1 == k) = true
    · have hpk : p.1 = k := eq_of_beq h
      have h1 : (imei == k) = false :=
        beq_eq_false_iff_ne.mpr fun he => hne he.symm
      have h2 : (imei == p.1) = false := by rw [hpk]; exact h1
      rw [if_pos h]
      simp only [List.lookup, h1, h2]
      exact ih
    · rw [if_neg h]
      cases h3 : imei == p.1
      · simp only [List.lookup, h3]
        exact ih
      · simp only [List.lookup, h3]

theorem lookup_updateRow_self {D : Type} (data : Snapshot D) (k : String)
    (v row : MowerState D) (hfound : data.lookup k = some row) :
    (updateRow data k v).lookup k = some v := by
  induction data with
  | nil => exact Option.noConfusion hfound
  | cons p rest ih =>
    show List.lookup k ((if p.1 == k then (k, v) else p) :: updateRow rest k v)
        = some v
    cases h : p.1 == k
    · have h2 : (k == p.1) = false := by
        rw [beq_eq_false_iff_ne] at h ⊢
        exact fun he => h he.symm
      rw [if_neg (by simp [h])]
      simp only [List.lookup, h2] at hfound ⊢
      exact ih hfound
    · rw [if_pos rfl]
      simp only [List.lookup, beq_self_eq_true]

theorem mergeSerial_state {D : Type} (row r : MowerState D) (at_ : Attrs)
    (h : mergeSerial row at_ = .ok r) : r.state = row.state := by
  unfold mergeSerial at h
  split at h
  · cases h; rfl
  · split at h
    · exact Except.noConfusion h
    · cases h; rfl

theorem mergeVersion_state {D : Type} (row r : MowerState D) (at_ : Attrs)
    (h : mergeVersion row at_ = .ok r) : r.state = row.state := by
  unfold mergeVersion at h
  split at h
  · cases h; rfl
  · split at h
    · exact Except.noConfusion h
    · cases h; rfl

theorem mergeAttrs_state {D : Type} (row r : MowerState D) (m : MowerEntry)
    (h : mergeAttrs row m = .ok r) : r.state = row.state := by
  unfold mergeAttrs at h
  split at h
  · cases h; rfl
  · rename_i at_ heq
    cases hs : mergeSerial row at_ with
    | error e => rw [hs] at h; exact Except.noConfusion h
    | ok r1 =>
      rw [hs] at h
      have h2 : mergeVersion r1 at_ = .ok r := h
      calc r.state = r1.state := mergeVersion_state r1 r at_ h2
        _ = row.state := mergeSerial_state row r1 at_ hs

theorem mergeConnected_state {D : Type} (row : MowerState D) (m : MowerEntry) :
    (mergeConnected row m).state = row.state := by
  unfold mergeConnected
  split <;> rfl

theorem mergeLastComm_state {D : Type} (parseDT : String → Option D)
    (row r : MowerState D) (m : MowerEntry)
    (h : mergeLastComm parseDT row m = .ok r) : r.state = row.state := by
  unfold mergeLastComm at h
  split at h
  · cases h; rfl
  · split at h
    · exact Except.noConfusion h
    · cases h; rfl

theorem mergeLastSeen_state {D : Type} (parseDT : String → Option D)
    (row r : MowerState D) (m : MowerEntry)
    (h : mergeLastSeen parseDT row m = .ok r) : r.state = row.state := by
  unfold mergeLastSeen at h
  split at h
  · cases h; rfl
  · split at h
    · exact Except.noConfusion h
    · cases h; rfl

theorem mergeMower_state_of_alarms_none {D : Type}
    (parseDT : String → Option D) (row r : MowerState D) (m : MowerEntry)
    (halarms : m.alarms = none) (h : mergeMower parseDT row m = .ok r) :
    r.state = row.state := by
  unfold mergeMower at h
  have h1 : mergeAlarms row m = .ok row := by
    unfold mergeAlarms
    rw [halarms]
  rw [h1] at h
  have hA : (do
      let r2 ← mergeAttrs row m
      let r4 ← mergeLastComm parseDT (mergeConnected r2 m) m
      mergeLastSeen parseDT r4 m) = .ok r := h
  cases h2 : mergeAttrs row m with
  | error e => rw [h2] at hA; exact Except.noConfusion hA
  | ok r2 =>
    rw [h2] at hA
    have hB : (do
        let r4 ← mergeLastComm parseDT (mergeConnected r2 m) m
        mergeLastSeen parseDT r4 m) = .ok r := hA
    cases h3 : mergeLastComm parseDT (mergeConnected r2 m) m with
    | error e => rw [h3] at hB; exact Except.noConfusion hB
    | ok r4 =>
      rw [h3] at hB
      have hC : mergeLastSeen parseDT r4 m = .ok r := hB
      calc r.state = r4.state := mergeLastSeen_state parseDT r4 r m hC
        _ = (mergeConnected r2 m).state := mergeLastComm_state parseDT _ r4 m h3
        _ = r2.state := mergeConnected_state r2 m
        _ = row.state := mergeAttrs_state row r2 m h2

theorem mergeAlarms_error {D : Type} (row : MowerState D) (m : MowerEntry)
    (e : PyError) (h : mergeAlarms row m = .error e) : e = .keyError := by
  unfold mergeAlarms at h
  split at h
  · exact Except.noConfusion h
  · split at h
    · exact Except.noConfusion h
    · split at h
      · cases h; rfl
      · split at h <;> exact Except.noConfusion h

theorem mergeSerial_error {D : Type} (row : MowerState D) (at_ : Attrs)
    (e : PyError) (h : mergeSerial row at_ = .error e) : e = .keyError := by
  unfold mergeSerial at h
  split at h
  · exact Except.noConfusion h
  · split at h
    · cases h; rfl
    · exact Except.noConfusion h

theorem mergeVersion_error {D : Type} (row : MowerState D) (at_ : Attrs)
    (e : PyError) (h : mergeVersion row at_ = .error e) : e = .keyError := by
  unfold mergeVersion at h
  split at h
  · exact Except.noConfusion h
  · split at h
    · cases h; rfl
    · exact Except.noConfusion h

theorem mergeAttrs_error {D : Type} (row : MowerState D) (m : MowerEntry)
    (e : PyError) (h : mergeAttrs row m = .error e) : e = .keyError := by
  unfold mergeAttrs at h
  split at h
  · exact Except.noConfusion h
  · rename_i at_ heq
    cases hs : mergeSerial row at_ with
    | error e2 =>
      rw [hs] at h
      have h2 : (Except.error e2 : Except PyError (MowerState D)) = .error e := h
      cases h2
      exact mergeSerial_error row at_ _ hs
    | ok r1 =>
      rw [hs] at h
      have h2 : mergeVersion r1 at_ = .error e := h
      exact mergeVersion_error r1 at_ e h2

theorem mergeLastComm_error {D : Type} (parseDT : String → Option D)
    (row : MowerState D) (m : MowerEntry) (e : PyError)
    (h : mergeLastComm parseDT row m = .error e) : e = .valueError := by
  unfold mergeLastComm at h
  split at h
  · exact Except.noConfusion h
  · split at h
    · cases h; rfl
    · exact Except.noConfusion h

theorem mergeLastSeen_error {D : Type} (parseDT : String → Option D)
    (row : MowerState D) (m : MowerEntry) (e : PyError)
    (h : mergeLastSeen parseDT row m = .error e) : e = .valueError := by
  unfold mergeLastSeen at h
  split at h
  · exact Except.noConfusion h
  · split at h
    · cases h; rfl
    · exact Except.noConfusion h

theorem mergeMower_error {D : Type} (parseDT : String → Option D)
    (row : MowerState D) (m : MowerEntry) (e : PyError)
    (h : mergeMower parseDT row m = .error e) :
    e = .valueError ∨ e = .keyError := by
  unfold mergeMower at h
  cases h1 : mergeAlarms row m with
  | error e1 =>
    rw [h1] at h
    have h2 : (Except.error e1 : Except PyError (MowerState D)) = .error e := h
    cases h2
    exact .inr (mergeAlarms_error row m _ h1)
  | ok r1 =>
    rw [h1] at h
    have hA : (do
        let r2 ← mergeAttrs r1 m
        let r4 ← mergeLastComm parseDT (mergeConnected r2 m) m
        mergeLastSeen parseDT r4 m) = .error e := h
    cases h2 : mergeAttrs r1 m with
    | error e2 =>
      rw [h2] at hA
      have h3 : (Except.error e2 : Except PyError (MowerState D)) = .error e := hA
      cases h3
      exact .inr (mergeAttrs_error r1 m _ h2)
    | ok r2 =>
      rw [h2] at hA
      have hB : (do
          let r4 ← mergeLastComm parseDT (mergeConnected r2 m) m
          mergeLastSeen parseDT r4 m) = .error e := hA
      cases h3 : mergeLastComm parseDT (mergeConnected r2 m) m with
      | error e3 =>
        rw [h3] at hB
        have h4 : (Except.error e3 : Except PyError (MowerState D)) = .error e := hB
        cases h4
        exact .inl (mergeLastComm_error parseDT _ m _ h3)
      | ok r4 =>
        rw [h3] at hB
        have h4 : mergeLastSeen parseDT r4 m = .error e := hB
        exact .inl (mergeLastSeen_error parseDT r4 m e h4)

theorem applyEntries_cons_nokey {D : Type} (parseDT : String → Option D)
    (data : Snapshot D) (m : MowerEntry) (rest : List MowerEntry)
    (hk : m.key = none) :
    applyEntries parseDT data (m :: rest) = applyEntries parseDT data rest := by
  show (match m.key with
    | none => applyEntries parseDT data rest
    | some k =>
      match data.lookup k with
      | none => applyEntries parseDT data rest
      | some row => do
          let row2 ← mergeMower parseDT row m
          applyEntries parseDT (updateRow data k row2) rest) = _
  rw [hk]

theorem applyEntries_cons_notfound {D : Type} (parseDT : String → Option D)
    (data : Snapshot D) (m : MowerEntry) (rest : List MowerEntry) (k : String)
    (hk : m.key = some k) (hl : data.lookup k = none) :
    applyEntries parseDT data (m :: rest) = applyEntries parseDT data rest := by
  show (match m.key with
    | none => applyEntries parseDT data rest
    | some k =>
      match data.lookup k with
      | none => applyEntries parseDT data rest
      | some row => do
          let row2 ← mergeMower parseDT row m
          applyEntries parseDT (updateRow data k row2) rest) = _
  rw [hk]
  show (match data.lookup k with
    | none => applyEntries parseDT data rest
    | some row => do
        let row2 ← mergeMower parseDT row m
        applyEntries parseDT (updateRow data k row2) rest) = _
  rw [hl]

theorem applyEntries_cons_found {D : Type} (parseDT : String → Option D)
    (data : Snapshot D) (m : MowerEntry) (rest : List MowerEntry) (k : String)
    (row : MowerState D) (hk : m.key = some k)
    (hl : data.lookup k = some row) :
    applyEntries parseDT data (m :: rest) =
      (do
        let row2 ← mergeMower parseDT row m
        applyEntries parseDT (updateRow data k row2) rest) := by
  show (match m.key with
    | none => applyEntries parseDT data rest
    | some k =>
      match data.lookup k with
      | none => applyEntries parseDT data rest
      | some row => do
          let row2 ← mergeMower parseDT row m
          applyEntries parseDT (updateRow data k row2) rest) = _
  rw [hk]
  show (match data.lookup k with
    | none => applyEntries parseDT data rest
    | some row => do
        let row2 ← mergeMower parseDT row m
        applyEntries parseDT (updateRow data k row2) rest) = _
  rw [hl]

theorem applyEntries_keys {D : Type} (parseDT : String → Option D)
    (es : List MowerEntry) :
    ∀ data d : Snapshot D, applyEntries parseDT data es = .ok d →
      d.map Prod.fst = data.map Prod.fst := by
  induction es with
  | nil =>
    intro data d h
    have h2 : (Except.ok data : Except PyError (Snapshot D)) = .ok d := h
    cases h2
    rfl
  | cons m rest ih =>
    intro data d h
    cases hk : m.key with
    | none =>
      rw [applyEntries_cons_nokey parseDT data m rest hk] at h
      exact ih data d h
    | some k =>
      cases hl : data.lookup k with
      | none =>
        rw [applyEntries_cons_notfound parseDT data m rest k hk hl] at h
        exact ih data d h
      | some row =>
        rw [applyEntries_cons_found parseDT data m rest k row hk hl] at h
        cases hm : mergeMower parseDT row m with
        | error e => rw [hm] at h; exact Except.noConfusion h
        | ok row2 =>
          rw [hm] at h
          have hB : applyEntries parseDT (updateRow data k row2) rest = .ok d := h
          rw [ih _ _ hB, updateRow_keys]

theorem applyEntries_error {D : Type} (parseDT : String → Option D)
    (es : List MowerEntry) :
    ∀ (data : Snapshot D) (e : PyError),
      applyEntries parseDT data es = .error e →
      e = .valueError ∨ e = .keyError := by
  induction es with
  | nil => intro data e h; exact Except.noConfusion h
  | cons m rest ih =>
    intro data e h
    cases hk : m.key with
    | none =>
      rw [applyEntries_cons_nokey parseDT data m rest hk] at h
      exact ih data e h
    | some k =>
      cases hl : data.lookup k with
      | none =>
        rw [applyEntries_cons_notfound parseDT data m rest k hk hl] at h
        exact ih data e h
      | some row =>
        rw [applyEntries_cons_found parseDT data m rest k row hk hl] at h
        cases hm : mergeMower parseDT row m with
        | error e1 =>
          rw [hm] at h
          have h2 : (Except.error e1 : Except PyError (Snapshot D)) = .error e := h
          cases h2
          exact mergeMower_error parseDT row m _ hm
        | ok row2 =>
          rw [hm] at h
          exact ih _ e h

theorem applyEntries_state_zero {D : Type} (parseDT : String → Option D)
    (imei : String) (es : List MowerEntry) :
    ∀ data d : Snapshot D,
      (∀ r, data.lookup imei = some r → r.state = 0) →
      (∀ m ∈ es, m.key = some imei → m.alarms = none) →
      applyEntries parseDT data es = .ok d →
      ∀ r, d.lookup imei = some r → r.state = 0 := by
  induction es with
  | nil =>
    intro data d h0 _ happ
    have h2 : (Except.ok data : Except PyError (Snapshot D)) = .ok d := happ
    cases h2
    exact h0
  | cons m rest ih =>
    intro data d h0 hm happ
    cases hk : m.key with
    | none =>
      rw [applyEntries_cons_nokey parseDT data m rest hk] at happ
      exact ih data d h0 (fun x hx => hm x (List.mem_cons_of_mem m hx)) happ
    | some k =>
      cases hl : data.lookup k with
      | none =>
        rw [applyEntries_cons_notfound parseDT data m rest k hk hl] at happ
        exact ih data d h0 (fun x hx => hm x (List.mem_cons_of_mem m hx)) happ
      | some row =>
        rw [applyEntries_cons_found parseDT data m rest k row hk hl] at happ
        cases hmm : mergeMower parseDT row m with
        | error e => rw [hmm] at happ; exact Except.noConfusion happ
        | ok row2 =>
          rw [hmm] at happ
          have hB : applyEntries parseDT (updateRow data k row2) rest = .ok d :=
            happ
          apply ih _ d _ (fun x hx => hm x (List.mem_cons_of_mem m hx)) hB
          intro r hr
          by_cases hki : k = imei
          · rw [← hki] at hr
            rw [lookup_updateRow_self data k row2 row hl] at hr
            injection hr with hr2
            have halarms : m.alarms = none :=
              hm m (List.mem_cons_self m rest) (by rw [hk, hki])
            have hst := mergeMower_state_of_alarms_none parseDT row row2 m
              halarms hmm
            rw [← hr2, hst]
            exact h0 row (by rw [← hki]; exact hl)
          · rw [lookup_updateRow_ne data k imei row2 hki] at hr
            exact h0 r hr

theorem lookup_init_state {D : Type} (mowers : List (String × String))
    (imei : String) :
    ∀ r, (mowers.map fun p : String × String => (p.1, placeholderRow D p.2 p.1)).lookup imei
        = some r → r.state = 0 := by
  induction mowers with
  | nil => intro r h; exact Option.noConfusion h
  | cons p rest ih =>
    intro r h
    simp only [List.map_cons] at h
    cases hb : imei == p.1
    · simp only [List.lookup, hb] at h
      exact ih r h
    · simp only [List.lookup, hb] at h
      cases h
      rfl

theorem asyncUpdateData_ok {D : Type} (parseDT : String → Option D)
    (mowers : List (String × String)) (fetch : Except PyError ThingListResponse)
    (d : Snapshot D) (h : asyncUpdateData parseDT mowers fetch = .ok d) :
    updateBody parseDT mowers fetch = .ok d := by
  unfold asyncUpdateData at h
  split at h
  · rename_i heq
    injection h with h2
    rw [← h2]
    exact heq
  · exact Except.noConfusion h
  · exact Except.noConfusion h
  · exact Except.noConfusion h

theorem updateBody_ok_keys {D : Type} (parseDT : String → Option D)
    (mowers : List (String × String)) (resp : ThingListResponse)
    (d : Snapshot D) (h : updateBody parseDT mowers (.ok resp) = .ok d) :
    d.map Prod.fst = mowers.map Prod.fst := by
  unfold updateBody at h
  have hA : (match resp.result with
      | none => Except.ok (mowers.map fun p : String × String => (p.1, placeholderRow D p.2 p.1))
      | some entries =>
          applyEntries parseDT
            (mowers.map fun p : String × String => (p.1, placeholderRow D p.2 p.1)) entries)
      = .ok d := h
  have hkeys : (mowers.map fun p : String × String => (p.1, placeholderRow D p.2 p.1)).map Prod.fst
      = mowers.map Prod.fst := by
    rw [List.map_map]
    rfl
  cases hr : resp.result with
  | none =>
    rw [hr] at hA
    have h2 : Except.ok (ε := PyError)
        (mowers.map fun p : String × String => (p.1, placeholderRow D p.2 p.1)) = .ok d := hA
    cases h2
    exact hkeys
  | some entries =>
    rw [hr] at hA
    rw [applyEntries_keys parseDT entries _ d hA]
    exact hkeys

theorem updateBody_error_kind {D : Type} (parseDT : String → Option D)
    (mowers : List (String × String)) (resp : ThingListResponse) (e : PyError)
    (h : updateBody (D := D) parseDT mowers (.ok resp) = .error e) :
    e = .valueError ∨ e = .keyError := by
  unfold updateBody at h
  have hA : (match resp.result with
      | none => Except.ok (mowers.map fun p : String × String => (p.1, placeholderRow D p.2 p.1))
      | some entries =>
          applyEntries parseDT
            (mowers.map fun p : String × String => (p.1, placeholderRow D p.2 p.1)) entries)
      = .error e := h
  cases hr : resp.result with
  | none =>
    rw [hr] at hA
    exact Except.noConfusion hA
  | some entries =>
    rw [hr] at hA
    exact applyEntries_error parseDT entries _ e hA

theorem guardCommand_snd (x : Except PyError Bool × List Request) :
    (guardCommand x).2 = x.2 := by
  rcases x with ⟨r, t⟩
  cases r <;> rfl

theorem guardCommand_fst_error (x : Except PyError Bool × List Request)
    (e : PyError) (h : x.1 = .error e) : (guardCommand x).1 = false := by
  rcases x with ⟨r, t⟩
  have h2 : r = .error e := h
  rw [h2]
  rfl

theorem guardCommand_fst_ok (x : Except PyError Bool × List Request)
    (b : Bool) (h : x.1 = .ok b) : (guardCommand x).1 = b := by
  rcases x with ⟨r, t⟩
  have h2 : r = .ok b := h
  rw [h2]
  rfl

/-- Claim C3: an authentication failure from the API client makes the
refresh raise the fatal reauthentication-required condition with the
previous snapshot untouched, and any other client-reported failure
makes it raise the recoverable update-failed condition, likewise with
the previous snapshot untouched. -/
theorem claim3_error_mapping {D : Type} (parseDT : String → Option D)
    (mowers : List (String × String)) (prev : Snapshot D) :
    refresh prev (asyncUpdateData parseDT mowers (.error .zcsAuthError)) =
      (prev, some .configEntryAuthFailed) ∧
    refresh prev (asyncUpdateData parseDT mowers (.error .zcsApiError)) =
      (prev, some .updateFailed) := by
  constructor <;> rfl

/-- Claim C7: the mapping produced by a successful refresh has exactly
the registered identifiers as its key sequence, for every response
(including those missing the `result` field): no registered row is
dropped and no unregistered response entry creates a row. -/
theorem claim7_snapshot_keys {D : Type} (parseDT : String → Option D)
    (mowers : List (String × String)) (resp : ThingListResponse)
    (d : Snapshot D)
    (hok : asyncUpdateData parseDT mowers (.ok resp) = .ok d) :
    d.map Prod.fst = mowers.map Prod.fst :=
  updateBody_ok_keys parseDT mowers resp d
    (asyncUpdateData_ok parseDT mowers (.ok resp) d hok)

def c7mowers : List (String × String) :=
  [("357567031117177", "Front"), ("358000111222333", "Back")]

def c7resp : ThingListResponse :=
  ⟨some [{ key := some "999999999999999", connected := some true,
           lastCommunication := none, lastSeen := none,
           alarms := none, attrs := none }]⟩

def c7data : Snapshot Unit :=
  c7mowers.map fun p => (p.1, placeholderRow Unit p.2 p.1)

/-- Claim C7 witness: with two registered mowers and a response whose
only entry carries an unregistered key, the refresh succeeds and its
key sequence is exactly the registered identifiers. -/
theorem claim7_witness : c7data.map Prod.fst = c7mowers.map Prod.fst :=
  claim7_snapshot_keys (fun _ => (none : Option Unit)) c7mowers c7resp c7data rfl

def c1imei : String := "357567031117177"

def c1prev : Snapshot Unit :=
  [(c1imei, { placeholderRow Unit "Mower" c1imei with state := 5 })]

def c1resp : ThingListResponse :=
  ⟨some [{ key := some c1imei, connected := some true,
           lastCommunication := none, lastSeen := none,
           alarms := none, attrs := none }]⟩

/-- Claim C1 counterexample: the pre-refresh snapshot row has state 5
and the refresh response entry for the device omits the `alarms`
object, yet after the refresh the state of the row is the placeholder 0,
not the previous value 5. -/
theorem claim1_counterexample :
    ((c1prev.lookup c1imei).map MowerState.state = some 5) ∧
    ((((refresh c1prev (asyncUpdateData (fun _ => (none : Option Unit))
        [(c1imei, "Mower")] (.ok c1resp))).1.lookup c1imei).map
        MowerState.state) = some 0) ∧
    some (0 : Int) ≠ some (5 : Int) :=
  ⟨rfl, rfl, by decide⟩

/-- Claim C1 as amended: each refresh rebuilds every row from the
placeholder (state 0, null fields, connected false); a device whose
response entries all omit the `alarms` object ends the refresh with the
placeholder state 0 regardless of the pre-refresh snapshot, rather
than retaining its previous state. -/
theorem claim1_placeholder_reset {D : Type} (parseDT : String → Option D)
    (prev : Snapshot D) (mowers : List (String × String))
    (resp : ThingListResponse) (d : Snapshot D) (imei : String)
    (hok : asyncUpdateData parseDT mowers (.ok resp) = .ok d)
    (hent : ∀ m ∈ resp.result.getD [], m.key = some imei → m.alarms = none) :
    ∀ r, ((refresh prev (asyncUpdateData parseDT mowers
        (.ok resp))).1).lookup imei = some r → r.state = 0 := by
  rw [hok]
  intro r hr
  have hr2 : d.lookup imei = some r := hr
  have hbody := asyncUpdateData_ok parseDT mowers (.ok resp) d hok
  unfold updateBody at hbody
  have hA : (match resp.result with
      | none => Except.ok (mowers.map
          fun p : String × String => (p.1, placeholderRow D p.2 p.1))
      | some entries => applyEntries parseDT (mowers.map
          fun p : String × String => (p.1, placeholderRow D p.2 p.1)) entries)
      = .ok d := hbody
  cases hres : resp.result with
  | none =>
    rw [hres] at hA
    have h2 : Except.ok (ε := PyError) (mowers.map
        fun p : String × String => (p.1, placeholderRow D p.2 p.1)) = .ok d := hA
    cases h2
    exact lookup_init_state mowers imei r hr2
  | some entries =>
    rw [hres] at hA
    have hm : ∀ m ∈ entries, m.key = some imei → m.alarms = none := by
      intro m hmem
      exact hent m (by rw [hres]; exact hmem)
    exact applyEntries_state_zero parseDT imei entries _ d
      (lookup_init_state mowers imei) hm hA r hr2

/-- Claim C1 witness: the amended claim applied to the counterexample
scenario, showing the post-refresh row carries the placeholder state 0. -/
theorem claim1_witness :
    ({ placeholderRow Unit "Mower" c1imei with connected := true } :
      MowerState Unit).state = 0 :=
  claim1_placeholder_reset (fun _ => (none : Option Unit)) c1prev
    [(c1imei, "Mower")] c1resp
    [(c1imei, { placeholderRow Unit "Mower" c1imei with connected := true })]
    c1imei rfl (by decide) _ rfl

def c8resp : ThingListResponse :=
  ⟨some [{ key := some "357567031117177", connected := none,
           lastCommunication := some "not-a-datetime", lastSeen := none,
           alarms := none, attrs := none }]⟩

/-- Claim C8 counterexample: a response entry whose
`lastCommunication` string fails datetime parsing makes the refresh
raise the unmapped `ValueError`, not the recoverable update-failed
condition. -/
theorem claim8_counterexample :
    asyncUpdateData (fun _ => (none : Option Unit))
      [("357567031117177", "Mower")] (.ok c8resp)
      = .error (.unhandled .valueError) ∧
    RefreshError.unhandled .valueError ≠ RefreshError.updateFailed :=
  ⟨rfl, by decide⟩

/-- Claim C8 as amended: a malformed response entry (a timestamp
string that fails parsing, or a `robot_state` object lacking `state`)
makes the refresh raise an unclassified exception (`ValueError` or
`KeyError`), not the update-failed condition; the previous snapshot is
still retained. -/
theorem claim8_unclassified {D : Type} (parseDT : String → Option D)
    (mowers : List (String × String)) (resp : ThingListResponse)
    (prev : Snapshot D) (e : RefreshError)
    (herr : asyncUpdateData parseDT mowers (.ok resp) = .error e) :
    (e = .unhandled .valueError ∨ e = .unhandled .keyError) ∧
    refresh prev (asyncUpdateData parseDT mowers (.ok resp)) =
      (prev, some e) := by
  constructor
  · unfold asyncUpdateData at herr
    split at herr
    · exact Except.noConfusion herr
    · rename_i heq
      rcases updateBody_error_kind parseDT mowers resp _ heq with h | h <;>
        exact PyError.noConfusion h
    · rename_i heq
      rcases updateBody_error_kind parseDT mowers resp _ heq with h | h <;>
        exact PyError.noConfusion h
    · rename_i e1 hna hnb heq
      injection herr with h3
      rw [← h3]
      rcases updateBody_error_kind parseDT mowers resp e1 heq with h | h
      · rw [h]
        exact .inl rfl
      · rw [h]
        exact .inr rfl
  · rw [herr]
    rfl

/-- Claim C8 witness: the amended claim applied to the malformed
datetime scenario. -/
theorem claim8_witness :
    ((RefreshError.unhandled .valueError = .unhandled .valueError ∨
      RefreshError.unhandled .valueError = .unhandled .keyError)) ∧
    refresh ([] : Snapshot Unit)
      (asyncUpdateData (fun _ => (none : Option Unit))
        [("357567031117177", "Mower")] (.ok c8resp)) =
      ([], some (.unhandled .valueError)) :=
  claim8_unclassified (fun _ => (none : Option Unit))
    [("357567031117177", "Mower")] c8resp [] (.unhandled .valueError) rfl

/-- Claim C9 counterexample: a 15-character string starting with
`"35"` that contains non-digit characters is not a valid hardware
identifier under the data model, yet `validate_imei` does not raise
`ValueError` on it and proceeds to the API call. -/
theorem claim9_counterexample :
    imeiSpecValid "35abcdefghijk00" = false ∧
    validate_imei (.ok true) "35abcdefghijk00" = (.ok (), true) :=
  ⟨by decide, rfl⟩

/-- Claim C9 as amended: `validate_imei` raises `ValueError`
synchronously, before issuing any API call, exactly for the strings
that do not start with `"35"` or whose length is not 15; it does not
check that the characters are digits. -/
theorem claim9_precheck_exact (execFind : Except PyError Bool)
    (imei : String) :
    validate_imei execFind imei = (.error .valueError, false) ↔
      ¬ ("35".data.isPrefixOf imei.data = true ∧ imei.length = 15) := by
  unfold validate_imei imeiPrecheckOk
  by_cases h : ("35".data.isPrefixOf imei.data && imei.length == 15) = true
  · rw [if_pos h]
    simp only [Bool.and_eq_true, beq_iff_eq] at h
    constructor
    · intro hcontra
      exfalso
      cases execFind with
      | error e => exact Bool.noConfusion (congrArg Prod.snd hcontra)
      | ok b => cases b <;> exact Bool.noConfusion (congrArg Prod.snd hcontra)
    · intro hcontra
      exact absurd h hcontra
  · rw [if_neg h]
    simp only [Bool.and_eq_true, beq_iff_eq] at h
    constructor
    · intro _
      exact h
    · intro _
      rfl

/-- Claim C9 witness: the amended characterization applied to a
concrete short string, which is rejected before any API call. -/
theorem claim9_witness :
    validate_imei (.ok true) "123" = (.error .valueError, false) :=
  (claim9_precheck_exact (.ok true) "123").mpr
    (fun hc => absurd hc.2 (by decide))

/-- Claim C2: the coordinator defines only six `async_*` methods; the
handlers for `work_now`, `work_for`, `charge_now` and `keep_out`
invoke coordinator methods that do not exist on the class. -/
theorem claim2_missing_coordinator_methods :
    ("async_work_now" ∉ coordinatorCommandMethods) ∧
    ("async_work_for" ∉ coordinatorCommandMethods) ∧
    ("async_charge_now" ∉ coordinatorCommandMethods) ∧
    ("async_keep_out" ∉ coordinatorCommandMethods) ∧
    (("work_now", "async_work_now") ∈ serviceHandlerCoordinatorCalls) ∧
    (("work_for", "async_work_for") ∈ serviceHandlerCoordinatorCalls) ∧
    (("charge_now", "async_charge_now") ∈ serviceHandlerCoordinatorCalls) ∧
    (("keep_out", "async_keep_out") ∈ serviceHandlerCoordinatorCalls) := by
  decide

/-- Claim C4: in every command operation the wake-up request is issued
strictly before the vendor method request, and a wake-up failure never
prevents the method call: whenever the client raises on the wake-up
request and returns a result on the method request, the operation
returns that result with the two-request trace. -/
theorem claim4_wakeup_before_method :
    (∀ (c : Client) (i : String) (p : Int),
      (async_set_profile c i p).2 = [wakeReq i, setProfileReq i p]) ∧
    (∀ (c : Client) (i : String) (a hrs mins : Int),
      (async_work_until c i a hrs mins).2 =
        [wakeReq i, workUntilReq i a hrs mins]) ∧
    (∀ (c : Client) (i : String),
      (async_border_cut c i).2 = [wakeReq i, borderCutReq i]) ∧
    (∀ (c : Client) (i : String) (hrs mins w : Int),
      (async_charge_until c i hrs mins w).2 =
        [wakeReq i, chargeUntilReq i hrs mins w]) ∧
    (∀ (c : Client) (i : String),
      (async_trace_position c i).2 = [wakeReq i, tracePositionReq i]) ∧
    (∀ (c : Client) (i : String) (p : Int) (e : PyError) (b : Bool),
      c (wakeReq i) = .error e → c (setProfileReq i p) = .ok b →
      async_set_profile c i p = (b, [wakeReq i, setProfileReq i p])) ∧
    (∀ (c : Client) (i : String) (a hrs mins : Int) (e : PyError) (b : Bool),
      c (wakeReq i) = .error e → c (workUntilReq i a hrs mins) = .ok b →
      async_work_until c i a hrs mins =
        (b, [wakeReq i, workUntilReq i a hrs mins])) ∧
    (∀ (c : Client) (i : String) (e : PyError) (b : Bool),
      c (wakeReq i) = .error e → c (borderCutReq i) = .ok b →
      async_border_cut c i = (b, [wakeReq i, borderCutReq i])) ∧
    (∀ (c : Client) (i : String) (hrs mins w : Int) (e : PyError) (b : Bool),
      c (wakeReq i) = .error e → c (chargeUntilReq i hrs mins w) = .ok b →
      async_charge_until c i hrs mins w =
        (b, [wakeReq i, chargeUntilReq i hrs mins w])) ∧
    (∀ (c : Client) (i : String) (e : PyError) (b : Bool),
      c (wakeReq i) = .error e → c (tracePositionReq i) = .ok b →
      async_trace_position c i = (b, [wakeReq i, tracePositionReq i])) := by
  refine ⟨?_, ?_, ?_, ?_, ?_, ?_, ?_, ?_, ?_, ?_⟩
  · intro c i p
    exact guardCommand_snd (commandBody c i (setProfileReq i p))
  · intro c i a hrs mins
    exact guardCommand_snd (commandBody c i (workUntilReq i a hrs mins))
  · intro c i
    exact guardCommand_snd (commandBody c i (borderCutReq i))
  · intro c i hrs mins w
    exact guardCommand_snd (commandBody c i (chargeUntilReq i hrs mins w))
  · intro c i
    exact guardCommand_snd (commandBody c i (tracePositionReq i))
  · intro c i p e b _hw hm
    show guardCommand (commandBody c i (setProfileReq i p)) = _
    unfold commandBody
    rw [hm]
    rfl
  · intro c i a hrs mins e b _hw hm
    show guardCommand (commandBody c i (workUntilReq i a hrs mins)) = _
    unfold commandBody
    rw [hm]
    rfl
  · intro c i e b _hw hm
    show guardCommand (commandBody c i (borderCutReq i)) = _
    unfold commandBody
    rw [hm]
    rfl
  · intro c i hrs mins w e b _hw hm
    show guardCommand (commandBody c i (chargeUntilReq i hrs mins w)) = _
    unfold commandBody
    rw [hm]
    rfl
  · intro c i e b _hw hm
    show guardCommand (commandBody c i (tracePositionReq i)) = _
    unfold commandBody
    rw [hm]
    rfl

def c4client : Client := fun r =>
  match r with
  | .smsSend _ _ _ => .error .zcsApiError
  | .methodExec _ => .ok true

/-- Claim C4 witness: a client that raises on every wake-up and
acknowledges every method call still yields an overall `true` result
for `border_cut`, with the wake-up issued first. -/
theorem claim4_witness :
    async_border_cut c4client "357567031117177" =
      (true, [wakeReq "357567031117177", borderCutReq "357567031117177"]) :=
  claim4_wakeup_before_method.2.2.2.2.2.2.2.1 c4client "357567031117177"
    .zcsApiError true rfl rfl

/-- Claim C5: every exception raised during a command
wake-up-plus-method sequence is converted into the result `false`, and
a normally returned outcome is passed through: no command operation
propagates an exception past its boundary. -/
theorem claim5_exceptions_become_false :
    (∀ (c : Client) (i : String) (p : Int),
      (∀ e, (commandBody c i (setProfileReq i p)).1 = .error e →
        (async_set_profile c i p).1 = false) ∧
      (∀ b, (commandBody c i (setProfileReq i p)).1 = .ok b →
        (async_set_profile c i p).1 = b)) ∧
    (∀ (c : Client) (i : String) (a hrs mins : Int),
      (∀ e, (commandBody c i (workUntilReq i a hrs mins)).1 = .error e →
        (async_work_until c i a hrs mins).1 = false) ∧
      (∀ b, (commandBody c i (workUntilReq i a hrs mins)).1 = .ok b →
        (async_work_until c i a hrs mins).1 = b)) ∧
    (∀ (c : Client) (i : String),
      (∀ e, (commandBody c i (borderCutReq i)).1 = .error e →
        (async_border_cut c i).1 = false) ∧
      (∀ b, (commandBody c i (borderCutReq i)).1 = .ok b →
        (async_border_cut c i).1 = b)) ∧
    (∀ (c : Client) (i : String) (hrs mins w : Int),
      (∀ e, (commandBody c i (chargeUntilReq i hrs mins w)).1 = .error e →
        (async_charge_until c i hrs mins w).1 = false) ∧
      (∀ b, (commandBody c i (chargeUntilReq i hrs mins w)).1 = .ok b →
        (async_charge_until c i hrs mins w).1 = b)) ∧
    (∀ (c : Client) (i : String),
      (∀ e, (commandBody c i (tracePositionReq i)).1 = .error e →
        (async_trace_position c i).1 = false) ∧
      (∀ b, (commandBody c i (tracePositionReq i)).1 = .ok b →
        (async_trace_position c i).1 = b)) := by
  refine ⟨?_, ?_, ?_, ?_, ?_⟩ <;>
    intros <;>
    exact ⟨fun e h => guardCommand_fst_error _ e h,
           fun b h => guardCommand_fst_ok _ b h⟩

def c5client : Client := fun _ => .error .zcsApiError

/-- Claim C5 witness: a client that raises on every request makes
`charge_until` return `false` rather than propagate. -/
theorem claim5_witness :
    (async_charge_until c5client "357567031117177" 22 0 3).1 = false :=
  (claim5_exceptions_become_false.2.2.2.1 c5client "357567031117177"
    22 0 3).1 .zcsApiError rfl

/-- Claim C6: profile and area indices are translated from 1-based to
0-based before transmission and the other parameters pass through: the
transmitted `set_profile` request carries `profile = p - 1` and the
transmitted `work_until` request carries `area = a - 1`, `hh = hours`,
`mm = minutes`. -/
theorem claim6_one_based_translation :
    (∀ (c : Client) (i : String) (p : Int),
      (async_set_profile c i p).2 =
        [wakeReq i, Request.methodExec ⟨"set_profile", i,
          some [("profile", p - 1)], API_ACK_TIMEOUT, true⟩]) ∧
    (∀ (c : Client) (i : String) (a hrs mins : Int),
      (async_work_until c i a hrs mins).2 =
        [wakeReq i, Request.methodExec ⟨"work_until", i,
          some [("area", a - 1), ("hh", hrs), ("mm", mins)],
          API_ACK_TIMEOUT, true⟩]) := by
  constructor
  · intro c i p
    exact guardCommand_snd (commandBody c i (setProfileReq i p))
  · intro c i a hrs mins
    exact guardCommand_snd (commandBody c i (workUntilReq i a hrs mins))

/-- Claim C10: the `work_until` service handler passes the service
fields positionally as `(imei, hours, minutes, area)` into the
coordinator signature `(imei, area, hours, minutes)`, so the
transmitted parameters are `area = hours - 1`, `hh = minutes`,
`mm = area`: the hours, minutes and area values are transposed end to
end. -/
theorem claim10_handler_transposes_params (c : Client) (i : String)
    (hoursField minutesField areaField : Int) :
    (async_handle_work_until c i hoursField minutesField areaField).2 =
      [wakeReq i, Request.methodExec ⟨"work_until", i,
        some [("area", hoursField - 1), ("hh", minutesField),
              ("mm", areaField)], API_ACK_TIMEOUT, true⟩] :=
  guardCommand_snd
    (commandBody c i (workUntilReq i hoursField minutesField areaField))

end Zcs
